import Mathlib

/-!
Verification of the PDF-Redactor redaction geometry and document
reconstruction engine.

The definitions below are a shallow embedding of the JavaScript source:

* src/src/redaction.js — computeRedactionRects, getEpicHeaderFooterRects,
  clamp, applyRedactionsToCanvas, and the page loop plus searchability gate
  of redactPdfBytes;
* src/src/redact.js and src/src/inchUtils.js — pxFromInches,
  renderPageToCanvas scaling, drawTopBandInches, and the output-page sizing
  of redactPdfArrayBuffer;
* src/src/templates.js — the surgery_notes template constants;
* src/src/lib/templates.js — rectsEpicHeaderFooter, rectsSurgeryTopBand,
  getRedactionRects;
* src/unnamed/part_011 — rectsToCanvas and the buildRasterOcrPdf loop.

JavaScript numbers are modelled as exact rationals; Math.round/Math.floor
become jsRound/jsFloor.  Canvas pixel buffers are modelled by their
provenance (Raster) so that the data flow render → paint → recognize is
visible to theorems.  The OCR and rendering collaborators are external
(tesseract.js, pdf.js): their per-page outcomes are inputs of the pipeline
model, and the viewer-space transform of the rasterizer is
modelled from the spec where noted.
-/

namespace PDFRedactor

/-- JS Math.round: rounds half away from zero toward positive infinity,
Math.round(x) = floor(x + 0.5). -/
def jsRound (q : ℚ) : ℤ := ⌊q + 1 / 2⌋

/-- JS Math.floor. -/
def jsFloor (q : ℚ) : ℤ := ⌊q⌋

/-- An axis-aligned rectangle as the source passes them around:
objects of shape x, y, w, h. -/
structure Rect where
  x : ℚ
  y : ℚ
  w : ℚ
  h : ℚ
deriving DecidableEq, Repr

/-- clamp from src/src/redaction.js 105-107:
Math.max(min, Math.min(max, n)). -/
def clamp (n lo hi : ℚ) : ℚ := max lo (min hi n)

/-- RedactionMode from src/src/redaction.js 20-23. -/
inductive RedactionMode
  | surgery_center
  | no_charge
deriving DecidableEq, Repr

/-- TEMPLATE.page1TopFrac from src/src/redaction.js 34-38. -/
def page1TopFrac : ℚ := 410 / 1000

/-- TEMPLATE.otherHeaderFrac from src/src/redaction.js 34-38. -/
def otherHeaderFrac : ℚ := 22 / 1000

/-- TEMPLATE.footerFrac from src/src/redaction.js 34-38. -/
def footerFrac : ℚ := 36 / 1000

/-- A width/height pair in PDF points, as returned by getPdfLibPageSizes. -/
structure SizePt where
  width : ℚ
  height : ℚ
deriving DecidableEq, Repr

/-- The cfg object consumed by computeRedactionRects; each field may be
absent (JS undefined), and the whole object may be absent. -/
structure Cfg where
  surgeryTopCm : Option ℚ
  alsoRedactFooter : Option Bool
  applyAllPages : Option Bool
deriving DecidableEq, Repr

/-- getEpicHeaderFooterRects from src/src/redaction.js 109-119: a top band
(page 1 large, later pages thin) and a footer band, in canvas (top-left
origin) pixel coordinates. -/
def getEpicHeaderFooterRects (pageIndex : ℕ) (canvasW canvasH : ℚ) : List Rect :=
  let topH : ℚ :=
    if pageIndex = 0 then (jsRound (canvasH * page1TopFrac) : ℚ)
    else (jsRound (canvasH * otherHeaderFrac) : ℚ)
  let footH : ℚ := (jsRound (canvasH * footerFrac) : ℚ)
  [⟨0, 0, canvasW, topH⟩, ⟨0, canvasH - footH, canvasW, footH⟩]

/-- The test cfg && cfg.applyAllPages === false from
src/src/redaction.js 138. -/
def cfgFirstPageOnly (cfg : Option Cfg) : Bool :=
  match cfg with
  | some c => c.applyAllPages == some false
  | none => false

/-- computeRedactionRects from src/src/redaction.js 121-140 (identical in
src/unnamed/part_010 134-153).  Rects are in canvas pixel space. -/
def computeRedactionRects (mode : RedactionMode) (pageIndex : ℕ) (canvasW canvasH : ℚ)
    (pageSizePt : Option SizePt) (cfg : Option Cfg) : List Rect :=
  let rects : List Rect :=
    match mode with
    | .no_charge => getEpicHeaderFooterRects pageIndex canvasW canvasH
    | .surgery_center =>
      let sizePt := pageSizePt.getD ⟨canvasW, canvasH⟩
      let pageHeightCm : ℚ := sizePt.height / 72 * (254 / 100)
      let frac : ℚ := ((cfg.bind Cfg.surgeryTopCm).getD 4) / pageHeightCm
      let topPx : ℚ := (jsRound (canvasH * frac) : ℚ)
      let footH : ℚ := (jsRound (canvasH * footerFrac) : ℚ)
      if (cfg.bind Cfg.alsoRedactFooter).getD true then
        [⟨0, 0, canvasW, topPx⟩, ⟨0, canvasH - footH, canvasW, footH⟩]
      else [⟨0, 0, canvasW, topPx⟩]
  if cfgFirstPageOnly cfg && decide (pageIndex ≠ 0) then [] else rects

/-- The per-rectangle clamping of applyRedactionsToCanvas,
src/src/redaction.js 152-163. -/
def clampRect (canvasW canvasH : ℚ) (r : Rect) : Rect :=
  let x := clamp r.x 0 canvasW
  let y := clamp r.y 0 canvasH
  let w := clamp r.w 0 (canvasW - x)
  let h := clamp r.h 0 (canvasH - y)
  ⟨x, y, w, h⟩

/-- applyRedactionsToCanvas from src/src/redaction.js 152-163, modelled as
the list of rectangles it actually fills: each rectangle is clamped to the
canvas and filled only when the clamped width and height are positive. -/
def applyRedactionsToCanvas (canvasW canvasH : ℚ) (rects : List Rect) : List Rect :=
  (rects.map (clampRect canvasW canvasH)).filter fun r =>
    decide (0 < r.w) && decide (0 < r.h)

/-- CM_TO_POINTS from src/src/lib/templates.js 9. -/
def CM_TO_POINTS : ℚ := 2835 / 100

/-- rectsEpicHeaderFooter from src/src/lib/templates.js 14-35: page-1 large
block plus 1 cm header and footer bands, in bottom-left-origin point
coordinates. -/
def rectsEpicHeaderFooter (pageIndex : ℕ) (pageW pageH : ℚ) : List Rect :=
  let block : List Rect :=
    if pageIndex = 0 then
      [⟨0, pageH - min 300 pageH, min 612 pageW, min 300 pageH⟩]
    else []
  let headerH : ℚ := min (1 * CM_TO_POINTS) pageH
  let footerH : ℚ := min (1 * CM_TO_POINTS) pageH
  block ++ [⟨0, pageH - headerH, pageW, headerH⟩, ⟨0, 0, pageW, footerH⟩]

/-- rectsSurgeryTopBand from src/src/lib/templates.js 39-43. -/
def rectsSurgeryTopBand (pageW pageH : ℚ) : List Rect :=
  [⟨0, pageH - min (4 * CM_TO_POINTS) pageH, pageW, min (4 * CM_TO_POINTS) pageH⟩]

/-- RedactionMode of src/src/lib/templates.js 4-7. -/
inductive LibMode
  | epic_header_footer
  | surgery_top_band
deriving DecidableEq, Repr

/-- getRedactionRects from src/src/lib/templates.js 45-48. -/
def getRedactionRects (mode : LibMode) (pageIndex : ℕ) (pageW pageH : ℚ) : List Rect :=
  match mode with
  | .surgery_top_band => rectsSurgeryTopBand pageW pageH
  | .epic_header_footer => rectsEpicHeaderFooter pageIndex pageW pageH

/-- rectsToCanvas from src/unnamed/part_011 28-35: content-space rectangles
(bottom-left origin, points) to canvas rectangles (top-left origin,
pixels) at the given scale. -/
def rectsToCanvas (rects : List Rect) (pageH scl : ℚ) : List Rect :=
  rects.map fun r => ⟨r.x * scl, (pageH - (r.y + r.h)) * scl, r.w * scl, r.h * scl⟩

/-- pxFromInches from src/src/inchUtils.js 2-4:
Math.round(inches * 72 * scale). -/
def pxFromInches (inches scl : ℚ) : ℤ := jsRound (inches * 72 * scl)

/-- A pdf.js viewport at scale 1: the page as the viewer sees it (rotation
already applied), in points. -/
structure Viewport0 where
  width : ℚ
  height : ℚ
deriving DecidableEq, Repr

/-- The render scale picked by renderPageToCanvas in src/src/redact.js 7-9:
Math.min(maxWidth / viewport0.width, 3.0). -/
def renderScaleFor (maxWidth : ℚ) (vp0 : Viewport0) : ℚ :=
  min (maxWidth / vp0.width) 3

/-- Canvas pixel dimensions from renderPageToCanvas in
src/src/redact.js 10-14: Math.floor of the scaled viewport; the PNG built
from the canvas has exactly these dimensions. -/
def canvasPixelDims (maxWidth : ℚ) (vp0 : Viewport0) : ℚ × ℚ :=
  ((jsFloor (vp0.width * renderScaleFor maxWidth vp0) : ℚ),
   (jsFloor (vp0.height * renderScaleFor maxWidth vp0) : ℚ))

/-- drawTopBandInches from src/src/redact.js 39-48, modelled as the viewer
band it fills: ctx.fillRect(0, 0, W, bandPx) on the canvas. -/
def drawTopBandInches (canvasW : ℤ) (scl inchesFromTop : ℚ) : Rect :=
  ⟨0, 0, (canvasW : ℚ), (pxFromInches inchesFromTop scl : ℚ)⟩

/-- A top_band_inches template, src/src/templates.js. -/
structure TopBandInches where
  firstPage : ℚ
  otherPages : ℚ
deriving DecidableEq, Repr

/-- The surgery_notes template of src/src/templates.js:
topBandInches firstPage 1.75, otherPages 0.6. -/
def surgery_notes : TopBandInches := ⟨7 / 4, 3 / 5⟩

/-- The band painted on 1-based page i by the top_band_inches branch of
redactPdfArrayBuffer, src/src/redact.js 108-114. -/
def redactPageTopBand (tpl : TopBandInches) (maxWidth : ℚ) (vp0 : Viewport0) (i : ℕ) : Rect :=
  let s := renderScaleFor maxWidth vp0
  drawTopBandInches (jsFloor (vp0.width * s))
    s (if i = 1 then tpl.firstPage else tpl.otherPages)

/-- Output page size chosen by redactPdfArrayBuffer,
src/src/redact.js 128-131: the embedded PNG is measured by
embedded.scale(1), whose width/height are the PNG pixel dimensions, and the
output page is added with exactly that size. -/
def redactArrayBufferOutPageSize (maxWidth : ℚ) (vp0 : Viewport0) : ℚ × ℚ :=
  ((jsFloor (vp0.width * renderScaleFor maxWidth vp0) : ℚ),
   (jsFloor (vp0.height * renderScaleFor maxWidth vp0) : ℚ))

/-- The four page rotations of a PageDescriptor. -/
inductive Rot
  | r0
  | r90
  | r180
  | r270
deriving DecidableEq, Repr

/-- Modelled from the spec: the Page Rasterizer collaborator (pdf.js, not
part of src/) renders into raster/viewer space, an origin-top-left pixel
system reflecting the page rotation and a chosen render scale (spec
glossary), where the rotation is the PDF clockwise display rotation.  This
maps a content-space point (bottom-left origin, unrotated, W by H points)
to its viewer coordinates at scale s. -/
def viewerOfContent (r : Rot) (W H s x y : ℚ) : ℚ × ℚ :=
  match r with
  | .r0 => (s * x, s * (H - y))
  | .r90 => (s * y, s * x)
  | .r180 => (s * (W - x), s * y)
  | .r270 => (s * (H - y), s * (W - x))

/-- Membership of a content-space point in the page content rectangle. -/
def inContentRect (W H x y : ℚ) : Prop :=
  0 ≤ x ∧ x ≤ W ∧ 0 ≤ y ∧ y ≤ H

/-- The content-space zone covered by a viewer-top band: those content
points of the page that drawTopBandInches paints, i.e. whose viewer pixel
row is strictly above bandPx. -/
def inTopBandZone (r : Rot) (W H s bandPx x y : ℚ) : Prop :=
  inContentRect W H x y ∧ (viewerOfContent r W H s x y).2 < bandPx

/-- The content-space rectangle covered on an unrotated page by the
viewer-top band of bandPx raster pixels at scale s (bottom-left origin). -/
def topBandContentRect (W H s bandPx : ℚ) : Rect :=
  ⟨0, H - bandPx / s, W, bandPx / s⟩

/-- A canvas pixel buffer identified by its provenance: either the bare
pdf.js rendering of a page, or a buffer onto which redaction rectangles
have been painted. -/
inductive Raster
  | rendered (pageIndex : ℕ)
  | painted (base : Raster) (rects : List Rect)
deriving DecidableEq, Repr

/-- The index of the input page a raster was rendered from. -/
def Raster.sourceIndex : Raster → ℕ
  | .rendered i => i
  | .painted b _ => b.sourceIndex

/-- One input page as the redactPdfBytes loop sees it: the canvas
dimensions pdf.js produced for it, and the outcome of the tesseract.js
recognize call on its redacted raster (collaborator input to the model).
Recognized text is represented by its post-trim character count. -/
structure InputPage where
  canvasW : ℚ
  canvasH : ℚ
  ocr : Except String ℕ
deriving Repr

/-- One page of the rebuilt output document: pdf-lib addPage size, the
image drawn on it, the drawImage target rectangle, and the invisible text
layer (character count) when one was embedded. -/
structure OutPage where
  widthPt : ℚ
  heightPt : ℚ
  image : Raster
  imageRect : Rect
  textLayerChars : Option ℕ
deriving DecidableEq, Repr

/-- The result of redactPdfBytes: output pages, the accumulated
ocrTotalChars counter, and the rasters handed to worker.recognize in call
order. -/
structure Artifact where
  pages : List OutPage
  ocrTotalChars : ℕ
  ocrCalls : List Raster
deriving DecidableEq, Repr

/-- The fully-populated cfg of redactPdfBytes, src/src/redaction.js
219-226. -/
structure PipelineCfg where
  applyAllPages : Bool
  includeOcr : Bool
  renderScale : ℚ
  surgeryTopCm : ℚ
  alsoRedactFooter : Bool
deriving DecidableEq, Repr

/-- The defaults of redactPdfBytes, src/src/redaction.js 219-226:
applyAllPages defaults to (mode === NO_CHARGE), includeOcr true,
renderScale 2.0, surgeryTopCm 4, alsoRedactFooter true. -/
def defaultCfg (mode : RedactionMode) : PipelineCfg :=
  ⟨decide (mode = RedactionMode.no_charge), true, 2, 4, true⟩

/-- The cfg value redactPdfBytes passes to computeRedactionRects: every
field present. -/
def PipelineCfg.toCfg (c : PipelineCfg) : Cfg :=
  ⟨some c.surgeryTopCm, some c.alsoRedactFooter, some c.applyAllPages⟩

/-- sizePtForRects of the loop, src/src/redaction.js 286:
pageSizes[i] || pageSizes[0]. -/
def sizePtForRects (pageSizes : List SizePt) (i : ℕ) : Option SizePt :=
  (pageSizes[i]?).orElse fun _ => pageSizes[0]?

/-- outSizePt of the loop, src/src/redaction.js 295:
pageSizes[i] || the PNG pixel dimensions (the PNG has the canvas
dimensions). -/
def outSizePt (pageSizes : List SizePt) (i : ℕ) (p : InputPage) : SizePt :=
  (pageSizes[i]?).getD ⟨p.canvasW, p.canvasH⟩

/-- The redaction rectangles computed for page i in the loop,
src/src/redaction.js 287. -/
def pageRects (mode : RedactionMode) (cfg : PipelineCfg) (pageSizes : List SizePt)
    (i : ℕ) (p : InputPage) : List Rect :=
  computeRedactionRects mode i p.canvasW p.canvasH (sizePtForRects pageSizes i)
    (some cfg.toCfg)

/-- The canvas after applyRedactionsToCanvas mutated it,
src/src/redaction.js 289: the page render with the painted rectangles
burned in. -/
def paintedRaster (mode : RedactionMode) (cfg : PipelineCfg) (pageSizes : List SizePt)
    (i : ℕ) (p : InputPage) : Raster :=
  .painted (.rendered i)
    (applyRedactionsToCanvas p.canvasW p.canvasH (pageRects mode cfg pageSizes i p))

/-- The character count a page's OCR outcome contributes (0 when the call
failed; the ok case already carries the trimmed-text length). -/
def ocrCount (p : InputPage) : ℕ :=
  match p.ocr with
  | .ok n => n
  | .error _ => 0

/-- The error thrown at src/src/redaction.js 306-311 when worker.recognize
rejects on page i (0-based; the message uses the 1-based number).  The
trailing model-URL hint of the source message is elided here. -/
def ocrFailMsg (i : ℕ) (msg : String) : String :=
  "OCR failed on page " ++ toString (i + 1) ++ ". " ++ msg

/-- The error thrown by the searchability gate,
src/src/redaction.js 328-334 (first sentence of the source message). -/
def searchabilityUnmetMsg : String :=
  "OCR completed but produced 0 extractable characters, so the output is NOT searchable."

/-- The output page built for input page i by the loop body,
src/src/redaction.js 291-317: a single full-bleed image of the redacted
raster on a page of outSizePt, plus the invisible text layer when OCR is on
and returned nonempty text. -/
def outPageFor (mode : RedactionMode) (cfg : PipelineCfg) (pageSizes : List SizePt)
    (i : ℕ) (p : InputPage) : OutPage :=
  let sz := outSizePt pageSizes i p
  { widthPt := sz.width
    heightPt := sz.height
    image := paintedRaster mode cfg pageSizes i p
    imageRect := ⟨0, 0, sz.width, sz.height⟩
    textLayerChars :=
      if cfg.includeOcr && decide (ocrCount p ≠ 0) then some (ocrCount p) else none }

/-- The page loop of redactPdfBytes, src/src/redaction.js 282-319, over the
pages from index i on: produces the output pages, the ocrTotalChars sum,
and the rasters handed to worker.recognize; an OCR rejection on a page
throws, abandoning that page and all later ones. -/
def runPages (mode : RedactionMode) (cfg : PipelineCfg) (pageSizes : List SizePt) :
    ℕ → List InputPage → Except String (List OutPage × ℕ × List Raster)
  | _, [] => .ok ([], 0, [])
  | i, p :: rest =>
    let step : Except String (ℕ × List Raster) :=
      if cfg.includeOcr then
        match p.ocr with
        | .error msg => .error (ocrFailMsg i msg)
        | .ok n => .ok (n, [paintedRaster mode cfg pageSizes i p])
      else .ok (0, [])
    match step with
    | .error m => .error m
    | .ok (chars, calls) =>
      match runPages mode cfg pageSizes (i + 1) rest with
      | .error m => .error m
      | .ok (outs, total, laterCalls) =>
        .ok (outPageFor mode cfg pageSizes i p :: outs, chars + total, calls ++ laterCalls)

/-- redactPdfBytes from src/src/redaction.js 214-337, from the point where
the document is loaded: run the page loop, then apply the searchability
gate (cfg.includeOcr && ocrTotalChars === 0 throws). -/
def redactPdfBytes (mode : RedactionMode) (cfg : PipelineCfg) (pageSizes : List SizePt)
    (pages : List InputPage) : Except String Artifact :=
  match runPages mode cfg pageSizes 0 pages with
  | .error m => .error m
  | .ok (outs, total, calls) =>
    if cfg.includeOcr && decide (total = 0) then .error searchabilityUnmetMsg
    else .ok ⟨outs, total, calls⟩

/-- Closed form of the output-page list the loop produces on success. -/
def buildOutPages (mode : RedactionMode) (cfg : PipelineCfg) (pageSizes : List SizePt) :
    ℕ → List InputPage → List OutPage
  | _, [] => []
  | i, p :: rest =>
    outPageFor mode cfg pageSizes i p :: buildOutPages mode cfg pageSizes (i + 1) rest

/-- Closed form of the recognize-call list the loop produces on success. -/
def buildOcrCalls (mode : RedactionMode) (cfg : PipelineCfg) (pageSizes : List SizePt) :
    ℕ → List InputPage → List Raster
  | _, [] => []
  | i, p :: rest =>
    (if cfg.includeOcr then [paintedRaster mode cfg pageSizes i p] else []) ++
      buildOcrCalls mode cfg pageSizes (i + 1) rest

/-- Closed form of the ocrTotalChars counter on success. -/
def totalOcrChars (cfg : PipelineCfg) (pages : List InputPage) : ℕ :=
  if cfg.includeOcr then (pages.map ocrCount).sum else 0

/-- Checks that every raster in a recognize-call list is a painted buffer
over a page rendering, never a bare (pre-redaction) rendering. -/
def allPaintedCalls : List Raster → Bool
  | [] => true
  | .painted (.rendered _) _ :: rest => allPaintedCalls rest
  | _ => false

/-- One input page of buildRasterOcrPdf (src/unnamed/part_011 151-212):
scale-1 viewport size and the recognize outcome for the page. -/
structure RasterPage where
  pageW : ℚ
  pageH : ℚ
  ocr : Except String ℕ
deriving Repr

/-- The character count of a RasterPage recognize outcome. -/
def rasterCount (p : RasterPage) : ℕ :=
  match p.ocr with
  | .ok n => n
  | .error _ => 0

/-- The result of buildRasterOcrPdf: pages, warnings, total characters. -/
structure RasterOcrOut where
  pages : List OutPage
  warnings : List String
  totalChars : ℕ
deriving DecidableEq, Repr

/-- The warning pushed at src/unnamed/part_011 203 when OCR returns no
text on a page. -/
def rasterNoTextWarning (pageIndex : ℕ) : String :=
  "Page " ++ toString (pageIndex + 1) ++ ": OCR returned no text."

/-- The warning pushed at src/unnamed/part_011 167 when the OCR worker
cannot be initialized (first sentences of the source message). -/
def rasterInitWarning : String :=
  "OCR could not be initialized. The output PDF will not be searchable."

/-- One output page of buildRasterOcrPdf, src/unnamed/part_011 176-201:
the page render painted with the canvas-mapped template rectangles (no
clamping in this pipeline), added at the scale-1 viewport size, full
bleed, with a low-opacity text layer when OCR produced text. -/
def rasterOutPage (mode : LibMode) (scl : ℚ) (ocrOn : Bool) (i : ℕ) (p : RasterPage) :
    OutPage :=
  let rects := getRedactionRects mode i p.pageW p.pageH
  let cRects := rectsToCanvas rects p.pageH scl
  { widthPt := p.pageW
    heightPt := p.pageH
    image := .painted (.rendered i) cRects
    imageRect := ⟨0, 0, p.pageW, p.pageH⟩
    textLayerChars :=
      if ocrOn && decide (rasterCount p ≠ 0) then some (rasterCount p) else none }

/-- The page loop of buildRasterOcrPdf, src/unnamed/part_011 170-206: when
OCR is on, a recognize rejection propagates (there is no try/catch around
it), an empty recognition only pushes a per-page warning. -/
def runRasterPages (mode : LibMode) (scl : ℚ) (ocrOn : Bool) :
    ℕ → List RasterPage → Except String (List OutPage × List String × ℕ)
  | _, [] => .ok ([], [], 0)
  | i, p :: rest =>
    let step : Except String (ℕ × List String) :=
      if ocrOn then
        match p.ocr with
        | .error m => .error m
        | .ok n => .ok (n, if n = 0 then [rasterNoTextWarning i] else [])
      else .ok (0, [])
    match step with
    | .error m => .error m
    | .ok (n, ws) =>
      match runRasterPages mode scl ocrOn (i + 1) rest with
      | .error m => .error m
      | .ok (outs, laterWs, total) =>
        .ok (rasterOutPage mode scl ocrOn i p :: outs, ws ++ laterWs, n + total)

/-- buildRasterOcrPdf from src/unnamed/part_011 151-212, from the point
where the document is loaded: a failed worker initialization only disables
OCR with a warning; there is no searchability gate in this pipeline. -/
def buildRasterOcrPdf (mode : LibMode) (scl : ℚ) (workerInit : Bool)
    (pages : List RasterPage) : Except String RasterOcrOut :=
  let initWs : List String := if workerInit then [] else [rasterInitWarning]
  match runRasterPages mode scl workerInit 0 pages with
  | .error m => .error m
  | .ok (outs, ws, total) => .ok ⟨outs, initWs ++ ws, total⟩

/-- Closed form of the buildRasterOcrPdf page list on success (OCR on). -/
def buildRasterOutPages (mode : LibMode) (scl : ℚ) (ocrOn : Bool) :
    ℕ → List RasterPage → List OutPage
  | _, [] => []
  | i, p :: rest =>
    rasterOutPage mode scl ocrOn i p :: buildRasterOutPages mode scl ocrOn (i + 1) rest

/-- Closed form of the buildRasterOcrPdf per-page warnings on success with
OCR on: one warning per page whose recognition came back empty. -/
def buildRasterWarnings : ℕ → List RasterPage → List String
  | _, [] => []
  | i, p :: rest =>
    (if rasterCount p = 0 then [rasterNoTextWarning i] else []) ++
      buildRasterWarnings (i + 1) rest

/-- Sample page list used by the concrete witnesses: one page whose OCR
returned 3 characters. -/
def samplePages : List InputPage := [⟨100, 100, .ok 3⟩]

/-- Sample page-size table used by the concrete witnesses. -/
def sampleSizes : List SizePt := [⟨612, 792⟩]

/-- The artifact redactPdfBytes produces on samplePages under the
no_charge defaults. -/
def sampleArtifact : Artifact :=
  ⟨buildOutPages .no_charge (defaultCfg .no_charge) sampleSizes 0 samplePages, 3,
   buildOcrCalls .no_charge (defaultCfg .no_charge) sampleSizes 0 samplePages⟩

/-! ## Theorems -/

/-- Every rectangle applyRedactionsToCanvas actually fills is the clamp of
an input rectangle and has positive width and height. -/
theorem mem_applyRedactionsToCanvas {canvasW canvasH : ℚ} {rects : List Rect} {r : Rect}
    (hr : r ∈ applyRedactionsToCanvas canvasW canvasH rects) :
    (∃ r0 ∈ rects, r = clampRect canvasW canvasH r0) ∧ 0 < r.w ∧ 0 < r.h := by
  unfold applyRedactionsToCanvas at hr
  rw [List.mem_filter] at hr
  obtain ⟨hmem, hpos⟩ := hr
  rw [List.mem_map] at hmem
  obtain ⟨r0, hr0, rfl⟩ := hmem
  rw [Bool.and_eq_true, decide_eq_true_eq, decide_eq_true_eq] at hpos
  exact ⟨⟨r0, hr0, rfl⟩, hpos.1, hpos.2⟩

/-- A clamped rectangle lies inside a nonnegative canvas. -/
theorem clampRect_contained (canvasW canvasH : ℚ) (hcw : 0 ≤ canvasW) (hch : 0 ≤ canvasH)
    (r0 : Rect) :
    0 ≤ (clampRect canvasW canvasH r0).x ∧ 0 ≤ (clampRect canvasW canvasH r0).y ∧
    (clampRect canvasW canvasH r0).x + (clampRect canvasW canvasH r0).w ≤ canvasW ∧
    (clampRect canvasW canvasH r0).y + (clampRect canvasW canvasH r0).h ≤ canvasH := by
  simp only [clampRect, clamp]
  have hx0 : (0 : ℚ) ≤ max 0 (min canvasW r0.x) := le_max_left _ _
  have hxW : max 0 (min canvasW r0.x) ≤ canvasW := max_le hcw (min_le_left _ _)
  have hy0 : (0 : ℚ) ≤ max 0 (min canvasH r0.y) := le_max_left _ _
  have hyH : max 0 (min canvasH r0.y) ≤ canvasH := max_le hch (min_le_left _ _)
  have hw : max 0 (min (canvasW - max 0 (min canvasW r0.x)) r0.w) ≤
      canvasW - max 0 (min canvasW r0.x) :=
    max_le (by linarith) (min_le_left _ _)
  have hh : max 0 (min (canvasH - max 0 (min canvasH r0.y)) r0.h) ≤
      canvasH - max 0 (min canvasH r0.y) :=
    max_le (by linarith) (min_le_left _ _)
  exact ⟨hx0, hy0, by linarith, by linarith⟩

/-- C4: for every template rectangle list and every canvas with positive
dimensions, every rectangle actually painted by applyRedactionsToCanvas
satisfies 0 ≤ x, 0 ≤ y, x + w ≤ canvasW, y + h ≤ canvasH and has strictly
positive width and height (rectangles whose clamped width or height is
zero are dropped, not painted); and every zone the rectsEpicHeaderFooter
template generates lies within the page bounds. -/
theorem painted_rects_within_bounds (canvasW canvasH : ℚ)
    (hcw : 0 < canvasW) (hch : 0 < canvasH) (rects : List Rect) :
    (∀ r ∈ applyRedactionsToCanvas canvasW canvasH rects,
        0 ≤ r.x ∧ 0 ≤ r.y ∧ r.x + r.w ≤ canvasW ∧ r.y + r.h ≤ canvasH ∧
        0 < r.w ∧ 0 < r.h) ∧
    (∀ (pageIndex : ℕ) (pageW pageH : ℚ), 0 ≤ pageW → 0 ≤ pageH →
        ∀ r ∈ rectsEpicHeaderFooter pageIndex pageW pageH,
          0 ≤ r.x ∧ 0 ≤ r.y ∧ r.x + r.w ≤ pageW ∧ r.y + r.h ≤ pageH) := by
  constructor
  · intro r hr
    obtain ⟨⟨r0, _, rfl⟩, hw, hh⟩ := mem_applyRedactionsToCanvas hr
    have h := clampRect_contained canvasW canvasH hcw.le hch.le r0
    exact ⟨h.1, h.2.1, h.2.2.1, h.2.2.2, hw, hh⟩
  · intro pageIndex pageW pageH hW hH r hr
    have hcm : min (1 * CM_TO_POINTS) pageH ≤ pageH := min_le_right _ _
    by_cases h0 : pageIndex = 0
    · simp [rectsEpicHeaderFooter, h0] at hr
      have h300 : min (300 : ℚ) pageH ≤ pageH := min_le_right _ _
      have h612 : min (612 : ℚ) pageW ≤ pageW := min_le_right _ _
      rcases hr with rfl | rfl | rfl
      · exact ⟨le_refl 0, by simp, by simp, by simp⟩
      · exact ⟨le_refl 0, by simp, by simp, by simp⟩
      · exact ⟨le_refl 0, le_refl 0, by simp, by simp⟩
    · simp [rectsEpicHeaderFooter, h0] at hr
      rcases hr with rfl | rfl
      · exact ⟨le_refl 0, by simp, by simp, by simp⟩
      · exact ⟨le_refl 0, le_refl 0, by simp, by simp⟩

/-- Witness for C4: on a 100 by 100 canvas the out-of-bounds rectangle
(-5, -5, 200, 300) is painted as (0, 0, 100, 100), which satisfies all
the bounds. -/
theorem painted_rects_within_bounds_witness :
    0 ≤ (Rect.mk 0 0 100 100).x ∧ 0 ≤ (Rect.mk 0 0 100 100).y ∧
    (Rect.mk 0 0 100 100).x + (Rect.mk 0 0 100 100).w ≤ 100 ∧
    (Rect.mk 0 0 100 100).y + (Rect.mk 0 0 100 100).h ≤ 100 ∧
    0 < (Rect.mk 0 0 100 100).w ∧ 0 < (Rect.mk 0 0 100 100).h :=
  (painted_rects_within_bounds 100 100 (by norm_num) (by norm_num)
    [⟨-5, -5, 200, 300⟩]).1 ⟨0, 0, 100, 100⟩ (by
      norm_num [applyRedactionsToCanvas, clampRect, clamp, min_def, max_def,
        List.filter, List.mem_singleton])

/-- With a non-positive canvas height, every rectangle clamps to zero
height and the painter fills nothing. -/
theorem applyRedactions_nonpos_height (canvasW canvasH : ℚ) (hch : canvasH ≤ 0)
    (rects : List Rect) : applyRedactionsToCanvas canvasW canvasH rects = [] := by
  unfold applyRedactionsToCanvas
  rw [List.filter_eq_nil_iff]
  intro r hr
  rw [List.mem_map] at hr
  obtain ⟨r0, _, rfl⟩ := hr
  have hh : (clampRect canvasW canvasH r0).h ≤ 0 := by
    simp only [clampRect, clamp]
    have hy : (0 : ℚ) ≤ max 0 (min canvasH r0.y) := le_max_left _ _
    have h1 : min (canvasH - max 0 (min canvasH r0.y)) r0.h ≤
        canvasH - max 0 (min canvasH r0.y) := min_le_left _ _
    exact max_le (le_refl 0) (by linarith)
  simp only [Bool.and_eq_true, decide_eq_true_eq, not_and]
  exact fun _ => not_lt.2 hh

/-- C9 (amended): the geometry resolver never signals an error.  Against a
page reporting non-positive dimensions, computeRedactionRects still
returns its ordinary rectangle list, and the painter clamping then drops
every rectangle, so nothing is painted. -/
theorem nonpositive_geometry_no_error (mode : RedactionMode) (pageIndex : ℕ)
    (canvasW canvasH : ℚ) (pageSizePt : Option SizePt) (cfg : Option Cfg)
    (hch : canvasH ≤ 0) :
    applyRedactionsToCanvas canvasW canvasH
      (computeRedactionRects mode pageIndex canvasW canvasH pageSizePt cfg) = [] :=
  applyRedactions_nonpos_height canvasW canvasH hch _

/-- Witness for C9 at a 612 by 0 page. -/
theorem nonpositive_geometry_no_error_witness :
    applyRedactionsToCanvas 612 0 (computeRedactionRects .no_charge 0 612 0 none none) = [] :=
  nonpositive_geometry_no_error .no_charge 0 612 0 none none (by norm_num)

/-- C9 counterexample: resolving the no_charge template against a page of
height 0 (invalid intrinsic size) signals nothing and still returns a
two-rectangle (degenerate) zone list — not an error and not the absence of
a list. -/
theorem nonpositive_geometry_no_error_cex :
    computeRedactionRects .no_charge 0 612 0 none none =
      [⟨0, 0, 612, 0⟩, ⟨0, 0, 612, 0⟩] ∧
    computeRedactionRects .no_charge 0 612 0 none none ≠ [] := by
  have h : computeRedactionRects .no_charge 0 612 0 none none =
      [⟨0, 0, 612, 0⟩, ⟨0, 0, 612, 0⟩] := by
    norm_num [computeRedactionRects, getEpicHeaderFooterRects, page1TopFrac,
      footerFrac, jsRound, cfgFirstPageOnly]
  exact ⟨h, by rw [h]; simp⟩

/-- C10: whenever the configuration object is present and sets
applyAllPages to false, computeRedactionRects returns the empty rectangle
list for every page index other than 0, in every mode — pages after the
first are left entirely unredacted, footer bands included. -/
theorem apply_all_pages_false_rest_empty (mode : RedactionMode) (pageIndex : ℕ)
    (canvasW canvasH : ℚ) (pageSizePt : Option SizePt) (cfg : Cfg)
    (hcfg : cfg.applyAllPages = some false) (hidx : pageIndex ≠ 0) :
    computeRedactionRects mode pageIndex canvasW canvasH pageSizePt (some cfg) = [] := by
  unfold computeRedactionRects
  have h : cfgFirstPageOnly (some cfg) = true := by simp [cfgFirstPageOnly, hcfg]
  simp [h, Bool.and_eq_true, decide_eq_true_eq, hidx]

/-- Witness for C10: page 1 under applyAllPages false resolves to no
rectangles. -/
theorem apply_all_pages_false_rest_empty_witness :
    computeRedactionRects .no_charge 1 100 100 none (some ⟨none, none, some false⟩) = [] :=
  apply_all_pages_false_rest_empty .no_charge 1 100 100 none ⟨none, none, some false⟩ rfl
    (by decide)

/-- Scaling by a positive factor against a threshold, in division form. -/
theorem mul_lt_iff_lt_div (s a b : ℚ) (hs : 0 < s) : s * a < b ↔ a < b / s := by
  rw [lt_div_iff₀ hs, mul_comm]

/-- C1 (amended): a viewer-top band resolves, in content space, to a band
on the physical edge determined by the rotation — the top edge at rotation
0, a full-height band on the LEFT edge at 90, the bottom edge at 180, and
a full-height band on the RIGHT edge at 270 (the 90 and 270 cases are the
reverse of the claimed assignment). -/
theorem topBand_edge_by_rotation (W H s B x y : ℚ) (hs : 0 < s) :
    (inTopBandZone .r0 W H s B x y ↔ inContentRect W H x y ∧ H - B / s < y) ∧
    (inTopBandZone .r90 W H s B x y ↔ inContentRect W H x y ∧ x < B / s) ∧
    (inTopBandZone .r180 W H s B x y ↔ inContentRect W H x y ∧ y < B / s) ∧
    (inTopBandZone .r270 W H s B x y ↔ inContentRect W H x y ∧ W - B / s < x) := by
  simp only [inTopBandZone, viewerOfContent]
  refine ⟨and_congr_right fun _ => ?_, and_congr_right fun _ => ?_,
    and_congr_right fun _ => ?_, and_congr_right fun _ => ?_⟩
  · rw [mul_lt_iff_lt_div _ _ _ hs, sub_lt_comm]
  · rw [mul_lt_iff_lt_div _ _ _ hs]
  · rw [mul_lt_iff_lt_div _ _ _ hs]
  · rw [mul_lt_iff_lt_div _ _ _ hs, sub_lt_comm]

/-- C1 counterexample: with a one-inch top band (72 raster pixels at scale
1) on a 612 by 792 page, the content point (0, 396) on the LEFT edge is in
the rotation-90 zone although it does not satisfy the claimed right-edge
condition, and the content point (612, 396) on the RIGHT edge is in the
rotation-270 zone although it does not satisfy the claimed left-edge
condition: the claimed 90/270 edge assignment is swapped. -/
theorem topBand_edge_by_rotation_cex :
    inTopBandZone .r90 612 792 1 ((pxFromInches 1 1 : ℤ) : ℚ) 0 396 ∧
    ¬ ((612 : ℚ) - ((pxFromInches 1 1 : ℤ) : ℚ) / 1 < 0) ∧
    inTopBandZone .r270 612 792 1 ((pxFromInches 1 1 : ℤ) : ℚ) 612 396 ∧
    ¬ ((612 : ℚ) < ((pxFromInches 1 1 : ℤ) : ℚ) / 1) := by
  norm_num [inTopBandZone, inContentRect, viewerOfContent, pxFromInches, jsRound]

/-- Witness for C1: at rotation 180, scale 2 and a 10 pixel band, the
content point (300, 2) near the physical bottom edge lies in the zone. -/
theorem topBand_edge_by_rotation_witness :
    inTopBandZone .r180 612 792 2 10 300 2 :=
  ((topBand_edge_by_rotation 612 792 2 10 300 2 (by norm_num)).2.2.1).mpr
    (by norm_num [inContentRect])

/-- C6 counterexample: with the surgery_notes template at the default
maxWidth 1400 on a 612 by 792 page, the painted page-one raster band does
not equal the exact content rectangle (0, 666, 612, 126): the band is 288
whole raster pixels, slightly less than 1.75 inches. -/
theorem surgery_notes_band_exact_cex :
    topBandContentRect 612 792 (renderScaleFor 1400 ⟨612, 792⟩)
        ((redactPageTopBand surgery_notes 1400 ⟨612, 792⟩ 1).h) ≠
      ⟨0, 666, 612, 126⟩ := by
  norm_num [topBandContentRect, renderScaleFor, redactPageTopBand, drawTopBandInches,
    pxFromInches, jsRound, jsFloor, surgery_notes, min_def, Rect.mk.injEq]

/-- C6 (amended): under the surgery_notes template (1.75 in on page one,
0.6 in on later pages) at the default maxWidth 1400 on 612 by 792 pages,
the painted bands are full canvas width and 288 and 99 whole raster
pixels — within half a raster pixel (under 0.11 pt) of the 126 pt and
43.2 pt bands of the spec scenario, the first slightly short and the
second slightly long, but not exactly equal to them. -/
theorem surgery_notes_band_values :
    redactPageTopBand surgery_notes 1400 ⟨612, 792⟩ 1 = ⟨0, 0, 1400, 288⟩ ∧
    redactPageTopBand surgery_notes 1400 ⟨612, 792⟩ 2 = ⟨0, 0, 1400, 99⟩ ∧
    topBandContentRect 612 792 (renderScaleFor 1400 ⟨612, 792⟩) 288 =
      ⟨0, 792 - 22032 / 175, 612, 22032 / 175⟩ ∧
    (22032 / 175 : ℚ) < 126 ∧ 126 - (22032 / 175 : ℚ) ≤ 11 / 100 ∧
    topBandContentRect 612 792 (renderScaleFor 1400 ⟨612, 792⟩) 99 =
      ⟨0, 792 - 15147 / 350, 612, 15147 / 350⟩ ∧
    (216 / 5 : ℚ) < 15147 / 350 ∧ (15147 / 350 : ℚ) - 216 / 5 ≤ 8 / 100 := by
  norm_num [redactPageTopBand, drawTopBandInches, pxFromInches, jsRound, jsFloor,
    renderScaleFor, surgery_notes, topBandContentRect, min_def, Rect.mk.injEq]

/-- C8 counterexample: redactPdfArrayBuffer sizes its output page from
embedded.scale(1), the PNG pixel dimensions.  For a 612 by 792 point page
at the default maxWidth 1400 the output page is 1400 by 1811 — exactly the
raster pixel size, not the original 612 by 792 points. -/
theorem out_page_sizing_cex :
    redactArrayBufferOutPageSize 1400 ⟨612, 792⟩ = ((1400 : ℚ), (1811 : ℚ)) ∧
    ((1400 : ℚ), (1811 : ℚ)) ≠ ((612 : ℚ), (792 : ℚ)) := by
  norm_num [redactArrayBufferOutPageSize, renderScaleFor, jsFloor, min_def, Prod.ext_iff]

/-- An Except value that isOk is an ok. -/
theorem isOk_exists {e : Except String ℕ} (h : e.isOk = true) : ∃ n, e = .ok n := by
  cases e with
  | ok n => exact ⟨n, rfl⟩
  | error m => simp [Except.isOk, Except.toBool] at h

/-- The page loop succeeds with the closed-form components when, with OCR
on, every page's recognize call succeeded. -/
theorem runPages_ok_of (mode : RedactionMode) (cfg : PipelineCfg) (pageSizes : List SizePt) :
    ∀ (i : ℕ) (pages : List InputPage),
      (cfg.includeOcr = true → ∀ p ∈ pages, p.ocr.isOk = true) →
      runPages mode cfg pageSizes i pages =
        .ok (buildOutPages mode cfg pageSizes i pages, totalOcrChars cfg pages,
             buildOcrCalls mode cfg pageSizes i pages) := by
  intro i pages
  induction pages generalizing i with
  | nil => intro _; simp [runPages, buildOutPages, buildOcrCalls, totalOcrChars]
  | cons p rest ih =>
    intro hok
    cases hoc : cfg.includeOcr with
    | false =>
      have hrest := ih (i + 1) (fun h => absurd h (by simp [hoc]))
      simp [runPages, hoc, hrest, buildOutPages, buildOcrCalls, totalOcrChars]
    | true =>
      obtain ⟨n, hn⟩ := isOk_exists (hok hoc p (List.mem_cons_self p rest))
      have hrest := ih (i + 1) (fun h q hq => hok h q (List.mem_cons_of_mem p hq))
      simp [runPages, hoc, hn, hrest, buildOutPages, buildOcrCalls, totalOcrChars,
        ocrCount]

/-- If the page loop succeeded while OCR was on, every page's recognize
call succeeded. -/
theorem runPages_ok_inv (mode : RedactionMode) (cfg : PipelineCfg) (pageSizes : List SizePt) :
    ∀ (i : ℕ) (pages : List InputPage) (res : List OutPage × ℕ × List Raster),
      runPages mode cfg pageSizes i pages = .ok res →
      cfg.includeOcr = true → ∀ p ∈ pages, p.ocr.isOk = true := by
  intro i pages
  induction pages generalizing i with
  | nil => intro res _ _ p hp; simp at hp
  | cons q rest ih =>
    intro res hres hoc p hp
    rw [runPages, hoc] at hres
    simp only [if_true] at hres
    cases hq : q.ocr with
    | error m => rw [hq] at hres; simp at hres
    | ok n =>
      rw [hq] at hres
      rcases List.mem_cons.mp hp with rfl | hp2
      · rw [hq]; rfl
      · cases hrest : runPages mode cfg pageSizes (i + 1) rest with
        | error m => rw [hrest] at hres; simp at hres
        | ok res2 => exact ih (i + 1) res2 hrest hoc p hp2

/-- Inversion for redactPdfBytes: a successful run determines the artifact
components, and implies every recognize call succeeded when OCR was on. -/
theorem redactPdfBytes_ok_inv (mode : RedactionMode) (cfg : PipelineCfg)
    (pageSizes : List SizePt) (pages : List InputPage) (a : Artifact)
    (h : redactPdfBytes mode cfg pageSizes pages = .ok a) :
    a = ⟨buildOutPages mode cfg pageSizes 0 pages, totalOcrChars cfg pages,
         buildOcrCalls mode cfg pageSizes 0 pages⟩ ∧
    (cfg.includeOcr = true → ∀ p ∈ pages, p.ocr.isOk = true) := by
  have hall : cfg.includeOcr = true → ∀ p ∈ pages, p.ocr.isOk = true := by
    intro hoc p hp
    unfold redactPdfBytes at h
    cases hr : runPages mode cfg pageSizes 0 pages with
    | error m => rw [hr] at h; simp at h
    | ok res => exact runPages_ok_inv mode cfg pageSizes 0 pages res hr hoc p hp
  have hrun := runPages_ok_of mode cfg pageSizes 0 pages hall
  unfold redactPdfBytes at h
  rw [hrun] at h
  have h2 : (if cfg.includeOcr && decide (totalOcrChars cfg pages = 0)
      then (Except.error searchabilityUnmetMsg : Except String Artifact)
      else .ok ⟨buildOutPages mode cfg pageSizes 0 pages, totalOcrChars cfg pages,
                buildOcrCalls mode cfg pageSizes 0 pages⟩) = .ok a := h
  by_cases hgate : (cfg.includeOcr && decide (totalOcrChars cfg pages = 0)) = true
  · rw [if_pos hgate] at h2; simp at h2
  · rw [if_neg hgate] at h2
    exact ⟨(Except.ok.inj h2).symm, hall⟩

/-- buildOutPages yields one output page per input page. -/
theorem buildOutPages_length (mode : RedactionMode) (cfg : PipelineCfg)
    (pageSizes : List SizePt) :
    ∀ (i : ℕ) (pages : List InputPage),
      (buildOutPages mode cfg pageSizes i pages).length = pages.length := by
  intro i pages
  induction pages generalizing i with
  | nil => rfl
  | cons p rest ih => simp [buildOutPages, ih]

/-- The j-th output page is built from the j-th input page. -/
theorem buildOutPages_getElem (mode : RedactionMode) (cfg : PipelineCfg)
    (pageSizes : List SizePt) :
    ∀ (i : ℕ) (pages : List InputPage) (j : ℕ),
      (buildOutPages mode cfg pageSizes i pages)[j]? =
        (pages[j]?).map fun p => outPageFor mode cfg pageSizes (i + j) p := by
  intro i pages
  induction pages generalizing i with
  | nil => intro j; simp [buildOutPages]
  | cons p rest ih =>
    intro j
    cases j with
    | zero => simp [buildOutPages]
    | succ j =>
      have harith : i + 1 + j = i + (j + 1) := by omega
      simp [buildOutPages, ih (i + 1) j, harith]

/-- Every raster in the recognize-call list is painted over a rendering. -/
theorem allPaintedCalls_buildOcrCalls (mode : RedactionMode) (cfg : PipelineCfg)
    (pageSizes : List SizePt) :
    ∀ (i : ℕ) (pages : List InputPage),
      allPaintedCalls (buildOcrCalls mode cfg pageSizes i pages) = true := by
  intro i pages
  induction pages generalizing i with
  | nil => rfl
  | cons p rest ih =>
    cases hoc : cfg.includeOcr with
    | false => simp [buildOcrCalls, hoc, ih]
    | true => simp [buildOcrCalls, hoc, paintedRaster, allPaintedCalls, ih]

/-- Every raster in the recognize-call list is the painted raster of an
actual input page. -/
theorem mem_buildOcrCalls (mode : RedactionMode) (cfg : PipelineCfg)
    (pageSizes : List SizePt) :
    ∀ (i : ℕ) (pages : List InputPage) (c : Raster),
      c ∈ buildOcrCalls mode cfg pageSizes i pages →
      ∃ j p, pages[j]? = some p ∧ c = paintedRaster mode cfg pageSizes (i + j) p := by
  intro i pages
  induction pages generalizing i with
  | nil => intro c hc; simp [buildOcrCalls] at hc
  | cons p rest ih =>
    intro c hc
    rw [buildOcrCalls, List.mem_append] at hc
    rcases hc with hc | hc
    · refine ⟨0, p, by simp, ?_⟩
      cases hoc : cfg.includeOcr with
      | false => rw [hoc] at hc; simp at hc
      | true =>
        rw [hoc] at hc
        simp only [if_true, List.mem_singleton] at hc
        rw [hc, Nat.add_zero]
    · obtain ⟨j, q, hq, hcq⟩ := ih (i + 1) c hc
      exact ⟨j + 1, q, by simpa using hq, by rw [hcq]; congr 1; omega⟩

/-- C2: with recognition requested and every per-page recognize call
succeeding, redactPdfBytes fails with the searchability error exactly when
the recognized character count summed over all pages is zero; when at
least one page contributes a nonzero count, no such error is raised and
the artifact is returned. -/
theorem searchability_gate (mode : RedactionMode) (cfg : PipelineCfg)
    (pageSizes : List SizePt) (pages : List InputPage)
    (hocr : cfg.includeOcr = true)
    (hok : ∀ p ∈ pages, p.ocr.isOk = true) :
    ((pages.map ocrCount).sum = 0 →
        redactPdfBytes mode cfg pageSizes pages = .error searchabilityUnmetMsg) ∧
    ((pages.map ocrCount).sum ≠ 0 →
        redactPdfBytes mode cfg pageSizes pages =
          .ok ⟨buildOutPages mode cfg pageSizes 0 pages, (pages.map ocrCount).sum,
               buildOcrCalls mode cfg pageSizes 0 pages⟩) := by
  have hrun := runPages_ok_of mode cfg pageSizes 0 pages (fun _ => hok)
  have htot : totalOcrChars cfg pages = (pages.map ocrCount).sum := by
    simp [totalOcrChars, hocr]
  constructor
  · intro hz
    unfold redactPdfBytes
    rw [hrun]
    simp [hocr, htot, hz]
  · intro hnz
    unfold redactPdfBytes
    rw [hrun]
    simp [hocr, htot, hnz]

/-- The sample one-page run succeeds with the closed-form artifact. -/
theorem sample_run_ok :
    redactPdfBytes .no_charge (defaultCfg .no_charge) sampleSizes samplePages =
      .ok sampleArtifact := by
  have hrun := runPages_ok_of .no_charge (defaultCfg .no_charge) sampleSizes 0 samplePages
    (by intro _ p hp; simp [samplePages] at hp; rw [hp]; rfl)
  have htot : totalOcrChars (defaultCfg .no_charge) samplePages = 3 := by
    simp [totalOcrChars, defaultCfg, samplePages, ocrCount]
  unfold redactPdfBytes
  rw [hrun, htot]
  simp [sampleArtifact, htot]

/-- Witness for C2: a single page with 3 recognized characters passes the
gate and the artifact is returned. -/
theorem searchability_gate_witness :
    redactPdfBytes .no_charge (defaultCfg .no_charge) sampleSizes samplePages =
      .ok sampleArtifact := by
  have h := (searchability_gate .no_charge (defaultCfg .no_charge) sampleSizes samplePages
    rfl (by intro p hp; simp [samplePages] at hp; rw [hp]; rfl)).2
    (by simp [samplePages, ocrCount])
  rw [h]
  simp [sampleArtifact, samplePages, ocrCount]

/-- C5: a successful redactPdfBytes run produces exactly one output page
per input page and in order: the output list has the input's length and
the j-th output page's image is the redaction-painted raster of input page
j. -/
theorem page_count_and_order_preserved (mode : RedactionMode) (cfg : PipelineCfg)
    (pageSizes : List SizePt) (pages : List InputPage) (a : Artifact)
    (h : redactPdfBytes mode cfg pageSizes pages = .ok a) :
    a.pages.length = pages.length ∧
    ∀ j p, pages[j]? = some p →
      (a.pages[j]?).map OutPage.image =
        some (Raster.painted (.rendered j)
          (applyRedactionsToCanvas p.canvasW p.canvasH
            (pageRects mode cfg pageSizes j p))) := by
  obtain ⟨ha, -⟩ := redactPdfBytes_ok_inv mode cfg pageSizes pages a h
  subst ha
  refine ⟨buildOutPages_length mode cfg pageSizes 0 pages, ?_⟩
  intro j p hp
  have hj := buildOutPages_getElem mode cfg pageSizes 0 pages j
  simp only [Nat.zero_add] at hj
  simp [hj, hp, outPageFor, paintedRaster]

/-- Witness for C5: the sample one-page run yields exactly one output
page. -/
theorem page_count_and_order_preserved_witness :
    sampleArtifact.pages.length = samplePages.length :=
  (page_count_and_order_preserved .no_charge (defaultCfg .no_charge) sampleSizes samplePages
    sampleArtifact sample_run_ok).1

/-- C7: in every successful run, every pixel buffer handed to the
recognize call is a redaction-painted raster of an actual input page —
recognition is never invoked on a bare pre-redaction rendering. -/
theorem recognize_input_is_redacted (mode : RedactionMode) (cfg : PipelineCfg)
    (pageSizes : List SizePt) (pages : List InputPage) (a : Artifact)
    (h : redactPdfBytes mode cfg pageSizes pages = .ok a) :
    allPaintedCalls a.ocrCalls = true ∧
    ∀ c ∈ a.ocrCalls, ∃ j p, pages[j]? = some p ∧
      c = paintedRaster mode cfg pageSizes j p := by
  obtain ⟨ha, -⟩ := redactPdfBytes_ok_inv mode cfg pageSizes pages a h
  subst ha
  refine ⟨allPaintedCalls_buildOcrCalls mode cfg pageSizes 0 pages, ?_⟩
  intro c hc
  obtain ⟨j, p, hp, hcp⟩ := mem_buildOcrCalls mode cfg pageSizes 0 pages c hc
  exact ⟨j, p, hp, by rw [hcp, Nat.zero_add]⟩

/-- Witness for C7: in the sample run every recognize input was a painted
raster. -/
theorem recognize_input_is_redacted_witness :
    allPaintedCalls sampleArtifact.ocrCalls = true :=
  (recognize_input_is_redacted .no_charge (defaultCfg .no_charge) sampleSizes samplePages
    sampleArtifact sample_run_ok).1

/-- C8 (amended): in redactPdfBytes the output page for input page j is a
single full-bleed image sized to the original page's point size whenever
the page-size table has an entry for j (the fallback is the PNG pixel
size); but in redactPdfArrayBuffer the output page takes the embedded
PNG's pixel dimensions — the raster size, not the original point size. -/
theorem out_page_sizing (mode : RedactionMode) (cfg : PipelineCfg)
    (pageSizes : List SizePt) (pages : List InputPage) (a : Artifact)
    (h : redactPdfBytes mode cfg pageSizes pages = .ok a) :
    (∀ (j : ℕ) (op : OutPage) (sz : SizePt), a.pages[j]? = some op → pageSizes[j]? = some sz →
        op.widthPt = sz.width ∧ op.heightPt = sz.height ∧
        op.imageRect = ⟨0, 0, sz.width, sz.height⟩) ∧
    (∀ (maxWidth : ℚ) (vp0 : Viewport0),
        redactArrayBufferOutPageSize maxWidth vp0 = canvasPixelDims maxWidth vp0) := by
  obtain ⟨ha, -⟩ := redactPdfBytes_ok_inv mode cfg pageSizes pages a h
  subst ha
  constructor
  · intro j op sz hop hsz
    have hj := buildOutPages_getElem mode cfg pageSizes 0 pages j
    simp only [Nat.zero_add] at hj
    rw [hj] at hop
    cases hp : pages[j]? with
    | none => rw [hp] at hop; simp at hop
    | some p =>
      rw [hp] at hop
      rw [Option.map_some'] at hop
      have hop2 : op = outPageFor mode cfg pageSizes j p := (Option.some.inj hop).symm
      subst hop2
      simp [outPageFor, outSizePt, hsz]
  · intro maxWidth vp0
    rfl

/-- Witness for C8: the redactPdfArrayBuffer page size equals the canvas
pixel dimensions at the default maxWidth on a letter page. -/
theorem out_page_sizing_witness :
    redactArrayBufferOutPageSize 1400 ⟨612, 792⟩ = canvasPixelDims 1400 ⟨612, 792⟩ :=
  (out_page_sizing .no_charge (defaultCfg .no_charge) sampleSizes samplePages
    sampleArtifact sample_run_ok).2 1400 ⟨612, 792⟩

/-- A failing recognize call at the first position after a prefix of good
pages makes the page loop reject with the OCR-failed error for that
page. -/
theorem runPages_error_at (mode : RedactionMode) (cfg : PipelineCfg)
    (pageSizes : List SizePt) (hocr : cfg.includeOcr = true) :
    ∀ (i : ℕ) (good : List InputPage) (cw ch : ℚ) (m : String) (rest : List InputPage),
      (∀ p ∈ good, p.ocr.isOk = true) →
      runPages mode cfg pageSizes i (good ++ ⟨cw, ch, .error m⟩ :: rest) =
        .error (ocrFailMsg (i + good.length) m) := by
  intro i good
  induction good generalizing i with
  | nil =>
    intro cw ch m rest _
    simp [runPages, hocr]
  | cons q gs ih =>
    intro cw ch m rest hok
    obtain ⟨n, hn⟩ := isOk_exists (hok q (List.mem_cons_self q gs))
    have hrest := ih (i + 1) cw ch m rest (fun p hp => hok p (List.mem_cons_of_mem q hp))
    have harith : i + 1 + gs.length = i + (gs.length + 1) := by omega
    simp [runPages, hocr, hn, hrest, harith]

/-- The buildRasterOcrPdf page loop succeeds with the closed-form
components when every recognize call succeeded. -/
theorem runRasterPages_ok (lm : LibMode) (scl : ℚ) :
    ∀ (i : ℕ) (rpages : List RasterPage),
      (∀ p ∈ rpages, p.ocr.isOk = true) →
      runRasterPages lm scl true i rpages =
        .ok (buildRasterOutPages lm scl true i rpages, buildRasterWarnings i rpages,
             (rpages.map rasterCount).sum) := by
  intro i rpages
  induction rpages generalizing i with
  | nil => intro _; simp [runRasterPages, buildRasterOutPages, buildRasterWarnings]
  | cons p rest ih =>
    intro hok
    obtain ⟨n, hn⟩ := isOk_exists (hok p (List.mem_cons_self p rest))
    have hrest := ih (i + 1) (fun q hq => hok q (List.mem_cons_of_mem p hq))
    simp [runRasterPages, hn, hrest, buildRasterOutPages, buildRasterWarnings,
      rasterCount]

/-- C3 (corrected claim): an OCR collaborator error on any page aborts
redactPdfBytes entirely — the operation rejects with the OCR-failed error
and no artifact or later page is produced; only an OCR call that succeeds
with EMPTY text degrades gracefully: buildRasterOcrPdf records a per-page
warning for it, keeps processing, and leaves that page's text layer
absent. -/
theorem ocr_failure_aborts (mode : RedactionMode) (cfg : PipelineCfg)
    (pageSizes : List SizePt) (good rest : List InputPage) (cw ch : ℚ) (m : String)
    (hocr : cfg.includeOcr = true) (hgood : ∀ p ∈ good, p.ocr.isOk = true) :
    redactPdfBytes mode cfg pageSizes (good ++ ⟨cw, ch, .error m⟩ :: rest) =
      .error (ocrFailMsg good.length m) ∧
    (∀ (lm : LibMode) (scl : ℚ) (rpages : List RasterPage),
        (∀ p ∈ rpages, p.ocr.isOk = true) →
        buildRasterOcrPdf lm scl true rpages =
          .ok ⟨buildRasterOutPages lm scl true 0 rpages, buildRasterWarnings 0 rpages,
               (rpages.map rasterCount).sum⟩) ∧
    (∀ (lm : LibMode) (scl : ℚ) (i : ℕ) (p : RasterPage),
        (rasterOutPage lm scl true i p).textLayerChars = none ↔ rasterCount p = 0) := by
  refine ⟨?_, ?_, ?_⟩
  · have h := runPages_error_at mode cfg pageSizes hocr 0 good cw ch m rest hgood
    unfold redactPdfBytes
    rw [h]
    simp
  · intro lm scl rpages hok
    have h := runRasterPages_ok lm scl 0 rpages hok
    unfold buildRasterOcrPdf
    rw [h]
    simp
  · intro lm scl i p
    by_cases hz : rasterCount p = 0 <;> simp [rasterOutPage, hz]

/-- Witness for C3: a concrete OCR failure on page 0 aborts the pipeline,
and a concrete empty-recognition page produces a warning while the run
succeeds. -/
theorem ocr_failure_aborts_witness :
    redactPdfBytes .no_charge (defaultCfg .no_charge) sampleSizes
        ([] ++ ⟨100, 100, Except.error "boom"⟩ :: [⟨100, 100, Except.ok 5⟩]) =
      .error (ocrFailMsg 0 "boom") ∧
    buildRasterOcrPdf .epic_header_footer 2 true [⟨612, 792, Except.ok 0⟩] =
      .ok ⟨buildRasterOutPages .epic_header_footer 2 true 0 [⟨612, 792, Except.ok 0⟩],
           buildRasterWarnings 0 [⟨612, 792, Except.ok 0⟩],
           ([⟨612, 792, Except.ok 0⟩].map rasterCount).sum⟩ := by
  have h := ocr_failure_aborts .no_charge (defaultCfg .no_charge) sampleSizes []
    [⟨100, 100, Except.ok 5⟩] 100 100 "boom" rfl (by simp)
  exact ⟨by simpa using h.1,
    h.2.1 .epic_header_footer 2 [⟨612, 792, Except.ok 0⟩]
      (by intro p hp; simp at hp; rw [hp]; rfl)⟩

/-- C3 counterexample: on a concrete 2-page input whose first page's OCR
collaborator call fails, redactPdfBytes rejects the whole operation with
the OCR-failed error — no artifact, no warning, and the second page is
never processed. -/
theorem ocr_failure_aborts_cex :
    redactPdfBytes .no_charge (defaultCfg .no_charge) [⟨612, 792⟩, ⟨612, 792⟩]
        [⟨100, 100, Except.error "boom"⟩, ⟨100, 100, Except.ok 5⟩] =
      .error (ocrFailMsg 0 "boom") := by
  have h := runPages_error_at .no_charge (defaultCfg .no_charge) [⟨612, 792⟩, ⟨612, 792⟩]
    rfl 0 [] 100 100 "boom" [⟨100, 100, Except.ok 5⟩] (by simp)
  simp only [List.nil_append, List.length_nil, Nat.add_zero] at h
  unfold redactPdfBytes
  rw [h]

end PDFRedactor
